import Mathlib

/-!
Verification of the gptme-tauri local server supervisor and deep-link
pipeline (src/src-tauri/src/lib.rs), as a shallow embedding in Lean 4.

External effects (OS socket table, process spawning, the process's
event stream, window presence, `window.eval` outcome, the mutex that can
be poisoned) are modelled as explicit state / parameters; the functions
themselves are translated directly from the Rust source.
-/

namespace GptmeTauri

/-- Source: `const GPTME_SERVER_PORT: u16 = 5700;` -/
def GPTME_SERVER_PORT : Nat := 5700

/-! ## Port prober (src/src-tauri/src/lib.rs lines 15-17)

`fn is_port_available(port: u16) -> bool \x7b
   TcpListener::bind(format!("127.0.0.1:\x7b\x7d", port)).is_ok() \x7d`

The OS socket table is modelled as the set of currently bound ports.
`TcpListener::bind` succeeds iff the port is not already bound; the
temporary listener value is dropped at the end of the expression, so the
bound-port set after the call equals the one before it. -/

structure NetEnv where
  bound : List Nat
deriving DecidableEq, Repr

/-- The bind-and-drop probe: first component is `is_ok()` of the bind,
second is the socket table after the call (the probe's own listener has
been dropped, so it is unchanged). -/
def portProbe (env : NetEnv) (port : Nat) : Bool × NetEnv :=
  if port ∈ env.bound then (false, env) else (true, env)

/-- The function `is_port_available` returns just the boolean of the probe. -/
def is_port_available (env : NetEnv) (port : Nat) : Bool :=
  (portProbe env port).1

/-! ## Deep-link code pipeline (src/src-tauri/src/lib.rs lines 154-187) -/

/-- A parsed `url::Url`, reduced to the pieces the pipeline inspects:
its scheme and its decoded query pairs (`url.query_pairs()`). -/
structure Url where
  scheme : String
  queryPairs : List (String × String)
deriving DecidableEq, Repr

/-- Source: `url.query_pairs().find(|(key, _)| key == "code").map(|(_, value)| value.to_string())` -/
def getCode (u : Url) : Option String :=
  (u.queryPairs.find? (fun p => p.1 == "code")).map (fun p => p.2)

/-- Source: `code.chars().filter(|c| c.is_ascii_alphanumeric()).collect()` -/
def sanitize (code : String) : String :=
  String.mk (code.toList.filter (fun c => c.isAlphanum))

/-- Observable effects of `handle_deep_link_urls`, in program order. -/
inductive DLEffect where
  /-- Source: `log::info!("Deep link received: ...")` -/
  | infoReceived (u : Url)
  /-- Source: `log::warn!("Auth code was empty after sanitization")` -/
  | warnEmptySanitized
  /-- Source: `log::info!("Auth code extracted from deep link, injecting into webview")` -/
  | infoExtracted
  /-- the `window.eval` call that sets the location hash to the sanitized
  code and reloads — the single delivery call -/
  | evalDeliver (code : String)
  /-- Source: `log::error!("Failed to inject auth code into webview: ...")` -/
  | errorEvalFailed
deriving DecidableEq, Repr

/-- One iteration of the `for url in &urls` loop of `handle_deep_link_urls`.
`windowExists` models `app.get_webview_window("main").is_some()`;
`evalFails code` models `window.eval(&js).is_err()` for the script built
from that code. -/
def handleOneUrl (windowExists : Bool) (evalFails : String → Bool) (u : Url) :
    List DLEffect :=
  DLEffect.infoReceived u ::
  match getCode u with
  | none => []
  | some raw =>
    let safe_code := sanitize raw
    if safe_code.isEmpty then
      [DLEffect.warnEmptySanitized]
    else
      DLEffect.infoExtracted ::
      if windowExists then
        DLEffect.evalDeliver safe_code ::
        (if evalFails safe_code then [DLEffect.errorEvalFailed] else [])
      else []

/-- Source: `fn handle_deep_link_urls(app: &AppHandle, urls: Vec<Url>)`:
the loop over all URLs, concatenating each iteration's effects. -/
def handle_deep_link_urls (windowExists : Bool) (evalFails : String → Bool)
    (urls : List Url) : List DLEffect :=
  (urls.map (handleOneUrl windowExists evalFails)).flatten

/-- The codes carried by the delivery calls among a list of effects. -/
def deliveredCodes (es : List DLEffect) : List String :=
  es.filterMap (fun e =>
    match e with
    | DLEffect.evalDeliver c => some c
    | _ => none)

/-! ### The three input paths feeding the pipeline (lib.rs `run`) -/

/-- Single-instance callback (lib.rs lines 198-216): parse each CLI
argument as a URL, keep only those whose scheme is `gptme`, and hand the
batch to `handle_deep_link_urls` when non-empty. `parse` models
`url::Url::parse(arg).ok()`. -/
def singleInstanceCallback (parse : String → Option Url) (windowExists : Bool)
    (evalFails : String → Bool) (argv : List String) : List DLEffect :=
  let urls := (argv.filterMap parse).filter (fun u => u.scheme == "gptme")
  if urls.isEmpty then [] else handle_deep_link_urls windowExists evalFails urls

/-- Launch-time deep-link path (lib.rs lines 254-257): the URLs from
`app.deep_link().get_current()` are passed to `handle_deep_link_urls`
directly, with no scheme filter in this repository's code. -/
def launchDeepLinkPath (windowExists : Bool) (evalFails : String → Bool)
    (urls : List Url) : List DLEffect :=
  handle_deep_link_urls windowExists evalFails urls

/-- URL-open event path (lib.rs lines 260-265): the URLs of an
`on_open_url` event are passed to `handle_deep_link_urls` directly,
with no scheme filter in this repository's code. -/
def onOpenUrlPath (windowExists : Bool) (evalFails : String → Bool)
    (urls : List Url) : List DLEffect :=
  handle_deep_link_urls windowExists evalFails urls

/-! ## Process supervisor (lib.rs lines 19-148, 388-414)

The shared `Arc<Mutex<Option<CommandChild>>>` is modelled as an optional
handle plus a poisoned flag (`lock()` fails iff the mutex is poisoned).
`classifierTasks` counts the background output-consumption tasks spawned
so far. -/

/-- A `CommandChild`: the opaque handle to a spawned sidecar process. -/
structure Handle where
  pid : Nat
deriving DecidableEq, Repr

/-- The supervisor's shared state. -/
structure SupState where
  store : Option Handle
  lockPoisoned : Bool
  classifierTasks : Nat
deriving DecidableEq, Repr

/-- Source: `struct ServerStatus \x7b running, port, port_available \x7d` -/
structure ServerStatus where
  running : Bool
  port : Nat
  port_available : Bool
deriving DecidableEq, Repr

/-- Source: `fn get_server_status(state) -> ServerStatus` (lib.rs lines 31-38).
`running = state.0.lock().map(|guard| guard.is_some()).unwrap_or(false)`;
`port_available` is probed afresh against the socket table `env` at the
moment of the call. Total: never returns an error. -/
def get_server_status (st : SupState) (env : NetEnv) : ServerStatus :=
  { running := if st.lockPoisoned then false else st.store.isSome
    port := GPTME_SERVER_PORT
    port_available := is_port_available env GPTME_SERVER_PORT }

/-- Side effects of the stop / shutdown paths. -/
inductive SupEffect where
  /-- a `child.kill()` call was issued -/
  | killSignal
deriving DecidableEq, Repr

/-- Source: `fn stop_server(state) -> Result<(), String>` (lib.rs lines 42-52).
`killResult` models the outcome of `child.kill()`. The handle is taken
from the store before the kill is attempted, and is not re-inserted when
the kill errors. Returns (result, state after, effects). -/
def stop_server (st : SupState) (killResult : Except String Unit) :
    Except String Unit × SupState × List SupEffect :=
  if st.lockPoisoned then
    (Except.error "Lock error", st, [])
  else
    match st.store with
    | some _ =>
      let st' : SupState := { st with store := none }
      match killResult with
      | Except.ok _ => (Except.ok (), st', [SupEffect.killSignal])
      | Except.error e =>
        (Except.error ("Kill error: " ++ e), st', [SupEffect.killSignal])
    | none => (Except.error "No server process running", st, [])

/-- Source: `if cfg!(debug_assertions) \x7b "http://localhost:5701" \x7d else \x7b "tauri://localhost" \x7d` -/
def corsOrigin (debugBuild : Bool) : String :=
  if debugBuild then "http://localhost:5701" else "tauri://localhost"

/-- The environment a `start_server` call runs against: the socket table,
the build mode, the outcome of `app.shell().sidecar("gptme-server")`, and
the outcome of `sidecar_command.spawn()` (on success, the child handle). -/
structure StartEnv where
  net : NetEnv
  debugBuild : Bool
  sidecarResult : Except String Unit
  spawnResult : Except String Handle

/-- Source: `async fn start_server(app, state) -> Result<u16, String>`
(lib.rs lines 56-148): fail with "Server is already running" when the
store holds a handle; else fail with "Port 5700 is already in use" when
the port probe fails; else build the sidecar command with
`--cors-origin`, spawn it, store the child, spawn one classifier task,
and return the port. Returns (result, state after). -/
def start_server (st : SupState) (env : StartEnv) : Except String Nat × SupState :=
  if st.lockPoisoned then
    (Except.error "Lock error", st)
  else if st.store.isSome then
    (Except.error "Server is already running", st)
  else if !(is_port_available env.net GPTME_SERVER_PORT) then
    (Except.error ("Port " ++ toString GPTME_SERVER_PORT ++ " is already in use"), st)
  else
    match env.sidecarResult with
    | Except.error e => (Except.error ("Sidecar error: " ++ e), st)
    | Except.ok _ =>
      match env.spawnResult with
      | Except.error e => (Except.error ("Spawn error: " ++ e), st)
      | Except.ok child =>
        (Except.ok GPTME_SERVER_PORT,
         { st with store := some child,
                   classifierTasks := st.classifierTasks + 1 })

/-! ## Output classifier (lib.rs lines 109-145 and 340-378) -/

/-- Model of `tauri_plugin_shell::process::CommandEvent` (the enum is
non-exhaustive; `other` stands for the `_ => \x7b\x7d` arm). Chunk bytes are
modelled after `String::from_utf8_lossy` as strings. -/
inductive CommandEvent where
  | stdout (data : String)
  | stderr (data : String)
  | error (msg : String)
  | terminated (code : Option Int)
  | other
deriving DecidableEq, Repr

/-- A record sent to the log sink, tagged with its severity. -/
inductive LogRecord where
  | info (msg : String)
  | warn (msg : String)
  | error (msg : String)
deriving DecidableEq, Repr

/-- The non-empty trimmed lines of a chunk:
`output.lines()` with the `!line.trim().is_empty()` filter, each line
logged as `line.trim()`. -/
def chunkLines (s : String) : List String :=
  ((s.splitOn "\n").map String.trim).filter (fun l => !l.isEmpty)

/-- The warn record emitted for a `Terminated` event
(`"[gptme-server] Process terminated with code: \x7b:?\x7d"`). -/
def terminatedRecord (code : Option Int) : LogRecord :=
  LogRecord.warn ("[gptme-server] Process terminated with code: " ++ reprStr code)

/-- The classifier's reaction to `Terminated`:
`if let Ok(mut guard) = state_arc.lock() \x7b *guard = None; \x7d` —
best-effort clearing of the store, a no-op on lock failure. -/
def terminatedCleanup (st : SupState) : SupState :=
  if st.lockPoisoned then st else { st with store := none }

/-- The classifier loop: `while let Some(event) = rx.recv().await`,
matching on each event and `break`ing after `Terminated`. Returns the
log records emitted, the supervisor state after the loop, and the
events left unread when the loop ended. -/
def classifierRun (events : List CommandEvent) (st : SupState) :
    List LogRecord × SupState × List CommandEvent :=
  match events with
  | [] => ([], st, [])
  | e :: rest =>
    match e with
    | CommandEvent.stdout data =>
      let r := classifierRun rest st
      ((chunkLines data).map (fun l => LogRecord.info ("[gptme-server] " ++ l)) ++ r.1,
       r.2)
    | CommandEvent.stderr data =>
      let r := classifierRun rest st
      ((chunkLines data).map (fun l => LogRecord.warn ("[gptme-server] " ++ l)) ++ r.1,
       r.2)
    | CommandEvent.error msg =>
      let r := classifierRun rest st
      (LogRecord.error ("[gptme-server] Process error: " ++ msg) :: r.1, r.2)
    | CommandEvent.terminated code =>
      ([terminatedRecord code], terminatedCleanup st, rest)
    | CommandEvent.other => classifierRun rest st

/-! ## Shutdown handler (lib.rs lines 388-414) -/

/-- The `CloseRequested` cleanup: lock (giving up with a logged error on
failure), `take()` the handle, kill it when present (logging but not
failing on a kill error), warn when absent. Returns (state after,
effects). -/
def shutdownCleanup (st : SupState) (_killResult : Except String Unit) :
    SupState × List SupEffect :=
  if st.lockPoisoned then (st, [])
  else
    match st.store with
    | some _ => ({ st with store := none }, [SupEffect.killSignal])
    | none => (st, [])

/-! ## Concrete fixtures used by witnesses -/

/-- An empty, healthy supervisor state. -/
def stEmpty : SupState := { store := none, lockPoisoned := false, classifierTasks := 0 }

/-- A healthy state holding one handle and one classifier task. -/
def stRunning : SupState :=
  { store := some { pid := 7 }, lockPoisoned := false, classifierTasks := 1 }

/-- A state whose mutex is poisoned. -/
def stPoisoned : SupState := { store := none, lockPoisoned := true, classifierTasks := 0 }

/-- A socket table with no bound ports. -/
def envFree : NetEnv := { bound := [] }

/-- A socket table on which port 5700 is already bound. -/
def envBusy : NetEnv := { bound := [5700] }

/-- A start environment with a free port and a successful spawn of pid 9. -/
def envStartOk : StartEnv :=
  { net := envFree, debugBuild := true, sidecarResult := Except.ok (),
    spawnResult := Except.ok { pid := 9 } }

/-- A start environment whose port is already bound. -/
def envStartBusy : StartEnv :=
  { net := envBusy, debugBuild := true, sidecarResult := Except.ok (),
    spawnResult := Except.ok { pid := 9 } }

/-- The state after a successful start from `stEmpty` spawning pid 9. -/
def stAfterStart : SupState :=
  { store := some { pid := 9 }, lockPoisoned := false, classifierTasks := 1 }

/-! ## Theorems -/

/-- C9: for every port, `is_port_available` returns false when the port
is already bound and true when it is unbound; the probe leaves the
socket table unchanged (its temporary listener is released), so repeated
probes of a free port keep returning true. -/
theorem C9_port_prober (env : NetEnv) (p : Nat) :
    (p ∈ env.bound → is_port_available env p = false) ∧
    (p ∉ env.bound → is_port_available env p = true) ∧
    (portProbe env p).2 = env ∧
    is_port_available (portProbe env p).2 p = is_port_available env p := by
  refine ⟨?_, ?_, ?_, ?_⟩ <;>
    simp only [is_port_available, portProbe] <;> intros <;> split <;> simp_all

/-- Witness for C9 at a concrete socket table: port 5700 bound, port 80 free. -/
theorem C9_port_prober_witness :
    is_port_available envBusy 5700 = false ∧
    is_port_available envBusy 80 = true ∧
    is_port_available (portProbe envBusy 80).2 80 = is_port_available envBusy 80 := by
  refine ⟨?_, ?_, (C9_port_prober envBusy 80).2.2.2⟩
  · exact (C9_port_prober envBusy 5700).1 (by decide)
  · exact (C9_port_prober envBusy 80).2.1 (by decide)

/-- C5: `get_server_status` is a total function (never an error); its
`running` field is whether the store holds a handle, with a failed lock
treated as not running; its `port` field is the constant 5700; and its
`port_available` field is a fresh probe of the socket table passed at
call time. -/
theorem C5_get_server_status (st : SupState) (env : NetEnv) :
    (st.lockPoisoned = true → (get_server_status st env).running = false) ∧
    (st.lockPoisoned = false →
      (get_server_status st env).running = st.store.isSome) ∧
    (get_server_status st env).port = 5700 ∧
    (get_server_status st env).port_available =
      is_port_available env GPTME_SERVER_PORT := by
  refine ⟨?_, ?_, rfl, rfl⟩ <;> intro h <;>
    simp [get_server_status, h]

/-- Witness for C5 at a concrete poisoned state and a concrete healthy
state holding a handle. -/
theorem C5_get_server_status_witness :
    (get_server_status stPoisoned envFree).running = false ∧
    (get_server_status stRunning envFree).running = true := by
  constructor
  · exact (C5_get_server_status stPoisoned envFree).1 rfl
  · have h := (C5_get_server_status stRunning envFree).2.1 rfl
    simpa [stRunning] using h

/-- C6: `stop_server` on an empty store fails with the NotRunning error,
leaves the state unchanged (store still empty) and issues no kill
signal. -/
theorem C6_stop_not_running (st : SupState) (killResult : Except String Unit)
    (hlock : st.lockPoisoned = false) (hst : st.store = none) :
    stop_server st killResult =
      (Except.error "No server process running", st, []) := by
  simp [stop_server, hlock, hst]

/-- Witness for C6 at the initial empty state. -/
theorem C6_stop_not_running_witness :
    stop_server stEmpty (Except.ok ()) =
      (Except.error "No server process running", stEmpty, []) :=
  C6_stop_not_running stEmpty (Except.ok ()) rfl rfl

/-- C7: when the store holds a handle but the kill call fails,
`stop_server` reports the failure as an error, yet the handle is not
re-inserted: the store is empty afterwards and a subsequent status query
reports not running. -/
theorem C7_stop_kill_failure (st : SupState) (c : Handle) (e : String)
    (env : NetEnv) (hlock : st.lockPoisoned = false) (hst : st.store = some c) :
    (stop_server st (Except.error e)).1 = Except.error ("Kill error: " ++ e) ∧
    (stop_server st (Except.error e)).2.1.store = none ∧
    (stop_server st (Except.error e)).2.2 = [SupEffect.killSignal] ∧
    (get_server_status (stop_server st (Except.error e)).2.1 env).running = false := by
  simp [stop_server, hlock, hst, get_server_status]

/-- Witness for C7 at a concrete running state whose kill call fails. -/
theorem C7_stop_kill_failure_witness :
    ((stop_server stRunning (Except.error "EPERM")).1 =
      Except.error ("Kill error: " ++ "EPERM")) ∧
    (get_server_status (stop_server stRunning
        (Except.error "EPERM")).2.1 envFree).running = false := by
  have h := C7_stop_kill_failure stRunning { pid := 7 } "EPERM" envFree rfl rfl
  exact ⟨h.1, h.2.2.2⟩

/-- C1: `start_server` with a handle already stored fails with the
AlreadyRunning error and leaves the state (hence the single stored
handle) unchanged; with an empty store and the port unavailable it fails
with the PortInUse error; with an empty store, the port available and a
successful sidecar build and spawn it stores exactly one handle, begins
exactly one new classifier task, and returns the fixed port 5700. -/
theorem C1_start_server (st : SupState) (env : StartEnv)
    (hlock : st.lockPoisoned = false) :
    (st.store.isSome = true →
      start_server st env = (Except.error "Server is already running", st)) ∧
    (st.store = none →
      is_port_available env.net GPTME_SERVER_PORT = false →
      start_server st env =
        (Except.error "Port 5700 is already in use", st)) ∧
    (∀ child, st.store = none →
      is_port_available env.net GPTME_SERVER_PORT = true →
      env.sidecarResult = Except.ok () →
      env.spawnResult = Except.ok child →
      start_server st env =
        (Except.ok 5700,
         { st with store := some child,
                   classifierTasks := st.classifierTasks + 1 })) := by
  refine ⟨?_, ?_, ?_⟩
  · intro hs
    simp [start_server, hlock, hs]
  · intro hs hp
    simp [start_server, hlock, hs, hp]
    rfl
  · intro child hs hp hsc hsp
    have hp' : is_port_available env.net 5700 = true := hp
    simp [start_server, hlock, hs, hp', hsc, hsp, GPTME_SERVER_PORT]

/-- Witness for C1: from the concrete running state a second start fails
with AlreadyRunning and changes nothing; from the concrete empty state
with the port bound it fails with PortInUse; from the empty state with
the port free and a successful spawn it returns port 5700 and stores the
spawned handle with one new classifier task. -/
theorem C1_start_server_witness :
    start_server stRunning envStartOk =
      (Except.error "Server is already running", stRunning) ∧
    start_server stEmpty envStartBusy =
      (Except.error "Port 5700 is already in use", stEmpty) ∧
    start_server stEmpty envStartOk = (Except.ok 5700, stAfterStart) := by
  refine ⟨?_, ?_, ?_⟩
  · exact (C1_start_server stRunning envStartOk rfl).1 rfl
  · exact (C1_start_server stEmpty envStartBusy rfl).2.1 rfl (by decide)
  · exact (C1_start_server stEmpty envStartOk rfl).2.2 { pid := 9 } rfl
      (by decide) rfl rfl

/-- C2: after a successful start, status reports running; after a stop
or after the classifier's termination cleanup, status reports not
running — in either order of the two cleanup paths, since each clears
the store idempotently and clearing an already-empty store is a no-op,
never an error. -/
theorem C2_status_lifecycle (st : SupState) (env : StartEnv) (net : NetEnv)
    (killRes : Except String Unit) (hlock : st.lockPoisoned = false) :
    (∀ p s2, start_server st env = (Except.ok p, s2) →
      (get_server_status s2 net).running = true) ∧
    (get_server_status (stop_server st killRes).2.1 net).running = false ∧
    (get_server_status (terminatedCleanup st) net).running = false ∧
    terminatedCleanup (terminatedCleanup st) = terminatedCleanup st ∧
    (st.store = none → terminatedCleanup st = st) ∧
    (st.store = none → shutdownCleanup st killRes = (st, [])) ∧
    (get_server_status (shutdownCleanup (terminatedCleanup st) killRes).1 net).running
      = false ∧
    (get_server_status (terminatedCleanup (shutdownCleanup st killRes).1) net).running
      = false := by
  refine ⟨?_, ?_, ?_, ?_, ?_, ?_, ?_, ?_⟩
  · intro p s2 h
    simp only [start_server, hlock] at h
    by_cases hs : st.store.isSome = true
    · simp [hs] at h
    · simp [hs] at h
      by_cases hp : is_port_available env.net GPTME_SERVER_PORT = true
      · simp [hp] at h
        cases hsc : env.sidecarResult with
        | error e => simp [hsc] at h
        | ok _ =>
          cases hsp : env.spawnResult with
          | error e => simp [hsc, hsp] at h
          | ok child =>
            simp [hsc, hsp] at h
            simp [get_server_status, ← h.2, hlock]
      · simp [hp] at h
  · cases hs : st.store <;> cases killRes <;>
      simp [stop_server, hlock, hs, get_server_status]
  · simp [terminatedCleanup, hlock, get_server_status]
  · simp [terminatedCleanup, hlock]
  · intro hs
    cases st with
    | mk s l c => simp_all [terminatedCleanup]
  · intro hs
    simp [shutdownCleanup, hlock, hs]
  · simp [shutdownCleanup, terminatedCleanup, hlock, get_server_status]
  · cases hs : st.store <;>
      simp [shutdownCleanup, terminatedCleanup, hlock, hs, get_server_status]

/-- Witness for C2: from the concrete empty state, a successful start
makes status report running; stopping the resulting state or running the
termination cleanup makes it report not running, in either order of the
two cleanup paths. -/
theorem C2_status_lifecycle_witness :
    (get_server_status stAfterStart envFree).running = true ∧
    (get_server_status (stop_server stRunning (Except.ok ())).2.1 envFree).running
      = false ∧
    (get_server_status (terminatedCleanup stRunning) envFree).running = false ∧
    (get_server_status
        (shutdownCleanup (terminatedCleanup stRunning) (Except.ok ())).1
        envFree).running = false := by
  refine ⟨?_, ?_, ?_, ?_⟩
  · exact (C2_status_lifecycle stEmpty envStartOk envFree (Except.ok ()) rfl).1
      5700 stAfterStart rfl
  · exact (C2_status_lifecycle stRunning envStartOk envFree (Except.ok ()) rfl).2.1
  · exact (C2_status_lifecycle stRunning envStartOk envFree
      (Except.ok ()) rfl).2.2.1
  · exact (C2_status_lifecycle stRunning envStartOk envFree
      (Except.ok ()) rfl).2.2.2.2.2.2.1

/-- C8: each stdout chunk yields one info record per non-empty trimmed
line, each stderr chunk one warn record per non-empty trimmed line, a
process error one single error record, and a termination event one warn
record carrying the exit code; termination clears the Handle Store and
ends consumption, returning every subsequent event unread. -/
theorem C8_classifier (data m : String) (code : Option Int)
    (es : List CommandEvent) (st : SupState) :
    (classifierRun (CommandEvent.stdout data :: es) st =
      ((chunkLines data).map (fun l => LogRecord.info ("[gptme-server] " ++ l))
         ++ (classifierRun es st).1,
       (classifierRun es st).2)) ∧
    (classifierRun (CommandEvent.stderr data :: es) st =
      ((chunkLines data).map (fun l => LogRecord.warn ("[gptme-server] " ++ l))
         ++ (classifierRun es st).1,
       (classifierRun es st).2)) ∧
    (classifierRun (CommandEvent.error m :: es) st =
      (LogRecord.error ("[gptme-server] Process error: " ++ m)
         :: (classifierRun es st).1,
       (classifierRun es st).2)) ∧
    (classifierRun (CommandEvent.terminated code :: es) st =
      ([terminatedRecord code], terminatedCleanup st, es)) ∧
    (st.lockPoisoned = false →
      (classifierRun (CommandEvent.terminated code :: es) st).2.1.store = none) := by
  refine ⟨rfl, rfl, rfl, rfl, ?_⟩
  intro hlock
  simp [classifierRun, terminatedCleanup, hlock]

/-- Witness for C8 at a concrete event sequence: a two-line stdout chunk
followed by termination and a further (unread) event, run from the
concrete running state. -/
theorem C8_classifier_witness :
    (classifierRun [CommandEvent.terminated (some 0), CommandEvent.other]
        stRunning).2.1.store = none ∧
    classifierRun [CommandEvent.terminated (some 0), CommandEvent.other]
        stRunning =
      ([terminatedRecord (some 0)], terminatedCleanup stRunning,
       [CommandEvent.other]) := by
  refine ⟨?_, ?_⟩
  · exact (C8_classifier "" "" (some 0) [CommandEvent.other] stRunning).2.2.2.2 rfl
  · exact (C8_classifier "" "" (some 0) [CommandEvent.other] stRunning).2.2.2.1

/-! Deep-link URL fixtures. -/

/-- The URL `gptme://callback?code=AB12!!cd` as seen by the pipeline. -/
def urlGood : Url := { scheme := "gptme", queryPairs := [("code", "AB12!!cd")] }

/-- The URL `gptme://callback?code=!!!` — its code sanitizes to empty. -/
def urlBadCode : Url := { scheme := "gptme", queryPairs := [("code", "!!!")] }

/-- A gptme URL carrying no `code` parameter. -/
def urlNoCode : Url := { scheme := "gptme", queryPairs := [("state", "x")] }

/-- A non-gptme URL that carries a `code` parameter. -/
def urlHttp : Url := { scheme := "http", queryPairs := [("code", "abc")] }

/-- C3: per URL, a present `code` parameter whose sanitization is
non-empty is delivered exactly once as the sanitized value (window
present); a code that sanitizes to empty yields a warning and no
delivery; an absent `code` parameter yields no delivery; and any
delivered code is the sanitized form of the extracted raw value, so the
unfiltered raw value never reaches the delivery call. The last conjunct
ties the per-URL function to the batch pipeline. -/
theorem C3_deep_link_sanitization (ef : String → Bool) (u : Url) :
    (∀ raw, getCode u = some raw → (sanitize raw).isEmpty = false →
      deliveredCodes (handleOneUrl true ef u) = [sanitize raw]) ∧
    (∀ raw, getCode u = some raw → (sanitize raw).isEmpty = true →
      deliveredCodes (handleOneUrl true ef u) = [] ∧
      DLEffect.warnEmptySanitized ∈ handleOneUrl true ef u) ∧
    (getCode u = none → ∀ w, deliveredCodes (handleOneUrl w ef u) = []) ∧
    (∀ w c, DLEffect.evalDeliver c ∈ handleOneUrl w ef u →
      ∃ raw, getCode u = some raw ∧ c = sanitize raw ∧
        (sanitize raw).isEmpty = false) ∧
    (∀ w us, handle_deep_link_urls w ef (u :: us) =
      handleOneUrl w ef u ++ handle_deep_link_urls w ef us) := by
  refine ⟨?_, ?_, ?_, ?_, ?_⟩
  · intro raw hc hne
    by_cases hf : ef (sanitize raw) <;>
      simp [handleOneUrl, hc, hne, deliveredCodes, hf]
  · intro raw hc he
    simp [handleOneUrl, hc, he, deliveredCodes]
  · intro hc w
    simp [handleOneUrl, hc, deliveredCodes]
  · intro w c hm
    cases hc : getCode u with
    | none => simp [handleOneUrl, hc] at hm
    | some raw =>
      refine ⟨raw, rfl, ?_⟩
      by_cases he : (sanitize raw).isEmpty <;>
        by_cases hw : w <;>
        by_cases hf : ef (sanitize raw) <;>
        simp_all [handleOneUrl, hc]
  · intro w us
    simp [handle_deep_link_urls]

/-- Witness for C3 at the three concrete URLs of the spec's examples:
`code=AB12!!cd` delivers exactly `AB12cd`; `code=!!!` delivers nothing
and warns; a URL without `code` delivers nothing. -/
theorem C3_deep_link_sanitization_witness :
    deliveredCodes (handleOneUrl true (fun _ => false) urlGood) = ["AB12cd"] ∧
    (deliveredCodes (handleOneUrl true (fun _ => false) urlBadCode) = [] ∧
      DLEffect.warnEmptySanitized ∈ handleOneUrl true (fun _ => false) urlBadCode) ∧
    deliveredCodes (handleOneUrl true (fun _ => false) urlNoCode) = [] := by
  refine ⟨?_, ?_, ?_⟩
  · have h := (C3_deep_link_sanitization (fun _ => false) urlGood).1
      "AB12!!cd" rfl (by decide)
    rw [show sanitize "AB12!!cd" = "AB12cd" from rfl] at h
    exact h
  · exact (C3_deep_link_sanitization (fun _ => false) urlBadCode).2.1
      "!!!" rfl (by decide)
  · exact (C3_deep_link_sanitization (fun _ => false) urlNoCode).2.2.1 rfl true

/-- C10: with no main webview window, a URL whose code sanitizes to a
non-empty value produces only the two info log lines — no delivery call,
no reported error — and the batch loop continues with the remaining
URLs. -/
theorem C10_no_window_skips_delivery (ef : String → Bool) (u : Url)
    (raw : String) (us : List Url) (hc : getCode u = some raw)
    (hne : (sanitize raw).isEmpty = false) :
    handleOneUrl false ef u = [DLEffect.infoReceived u, DLEffect.infoExtracted] ∧
    deliveredCodes (handleOneUrl false ef u) = [] ∧
    DLEffect.errorEvalFailed ∉ handleOneUrl false ef u ∧
    handle_deep_link_urls false ef (u :: us) =
      handleOneUrl false ef u ++ handle_deep_link_urls false ef us := by
  refine ⟨?_, ?_, ?_, ?_⟩ <;>
    simp [handleOneUrl, handle_deep_link_urls, hc, hne, deliveredCodes]

/-- Witness for C10 at the concrete valid-code URL with the window
absent: only the two info records, no delivery, no error. -/
theorem C10_no_window_skips_delivery_witness :
    handleOneUrl false (fun _ => false) urlGood =
      [DLEffect.infoReceived urlGood, DLEffect.infoExtracted] ∧
    deliveredCodes (handleOneUrl false (fun _ => false) urlGood) = [] := by
  have h := C10_no_window_skips_delivery (fun _ => false) urlGood
    "AB12!!cd" [] rfl (by decide)
  exact ⟨h.1, h.2.1⟩

/-! C4 helpers: which URLs can appear in the pipeline's effects. -/

/-- The `infoReceived` effect identifies the URL the loop iteration ran on. -/
theorem infoReceived_mem_handleOneUrl (w : Bool) (ef : String → Bool)
    (v u : Url) (h : DLEffect.infoReceived u ∈ handleOneUrl w ef v) : u = v := by
  cases hc : getCode v with
  | none => simp_all [handleOneUrl, hc]
  | some raw =>
    by_cases he : (sanitize raw).isEmpty <;>
      by_cases hw : w <;>
      by_cases hf : ef (sanitize raw) <;>
      simp_all [handleOneUrl, hc]

/-- Every URL reported received by the batch loop is a member of the batch. -/
theorem infoReceived_mem_handle_deep_link (w : Bool) (ef : String → Bool)
    (urls : List Url) (u : Url)
    (h : DLEffect.infoReceived u ∈ handle_deep_link_urls w ef urls) :
    u ∈ urls := by
  induction urls with
  | nil => simp [handle_deep_link_urls] at h
  | cons v vs ih =>
    simp only [handle_deep_link_urls, List.map_cons, List.flatten_cons,
      List.mem_append] at h
    rcases h with h | h
    · rw [infoReceived_mem_handleOneUrl w ef v u h]
      exact List.mem_cons_self v vs
    · exact List.mem_cons_of_mem v (ih h)

/-- C4 counterexample: the claim fails as stated. On the launch-time
deep-link path (and the identical URL-open path) the repository's code
passes the batch to extraction without any scheme filter: a mixed batch
containing an `http` URL with `code=abc` has that URL's code extracted
and delivered. -/
theorem C4_counterexample :
    urlHttp.scheme ≠ "gptme" ∧
    deliveredCodes (launchDeepLinkPath true (fun _ => false)
      [urlGood, urlHttp]) = ["AB12cd", "abc"] ∧
    deliveredCodes (onOpenUrlPath true (fun _ => false)
      [urlGood, urlHttp]) = ["AB12cd", "abc"] := by
  refine ⟨by decide, by decide, by decide⟩

/-- C4 (amended): only the single-instance forwarded-arguments path
filters inbound URLs by the `gptme` scheme before code extraction; on
that path every URL processed by the pipeline has scheme `gptme`. The
launch-time and URL-open paths pass URLs to extraction unfiltered. -/
theorem C4_single_instance_scheme_filter (parse : String → Option Url)
    (w : Bool) (ef : String → Bool) (argv : List String) (u : Url)
    (h : DLEffect.infoReceived u ∈ singleInstanceCallback parse w ef argv) :
    u.scheme = "gptme" := by
  simp only [singleInstanceCallback] at h
  split at h
  · simp at h
  · have hu := infoReceived_mem_handle_deep_link w ef _ u h
    have := List.of_mem_filter hu
    simpa using this

/-- Witness for C4's amended claim at a concrete forwarded argv whose
single argument parses to the gptme URL. -/
theorem C4_single_instance_scheme_filter_witness :
    urlGood.scheme = "gptme" :=
  C4_single_instance_scheme_filter (fun _ => some urlGood) true
    (fun _ => false) ["gptme://callback?code=AB12!!cd"] urlGood (by decide)

end GptmeTauri
